import Mathlib

/-!
Verification of the traffic-analysis browser extension's data access and
cache layer (DataManager, the background service worker, the event bus,
the cross-context messenger and the capped visit-history stores), as a
shallow embedding of the JavaScript sources.

Conventions used throughout the embedding:
* `Date.now()` timestamps are `Nat` milliseconds, passed in explicitly at
  each point the source reads the clock.
* `Math.random()` draws are an oracle `rnd : Nat → ℚ`, consumed at
  explicit positions in source evaluation order.
* JS `Map` objects are insertion-ordered association lists with the
  `mapGet` / `mapSet` / `mapDelete` operations below.
* Promise-returning transports (`sendMessageToBackground`,
  `fetchTrafficDataDirect`, ...) are abstracted as an
  `Except String Payload` outcome, matching the spec's Transport
  abstraction; `try`/`catch` becomes a `match` on that outcome.
-/

namespace TrafficExt

/-- JS `Math.round`: round half up. -/
def jsRound (x : ℚ) : ℤ := ⌊x + 1/2⌋

/-- JS `Map.prototype.get` on an insertion-ordered association list. -/
def mapGet {β : Type} : List (String × β) → String → Option β
  | [], _ => none
  | (k', v) :: rest, k => if k' = k then some v else mapGet rest k

/-- JS `Map.prototype.set`: overwrite in place if the key is present,
otherwise append at the end. -/
def mapSet {β : Type} : List (String × β) → String → β → List (String × β)
  | [], k, v => [(k, v)]
  | (k', v') :: rest, k, v =>
    if k' = k then (k, v) :: rest else (k', v') :: mapSet rest k v

/-- JS `Map.prototype.delete`. -/
def mapDelete {β : Type} : List (String × β) → String → List (String × β)
  | [], _ => []
  | (k', v) :: rest, k =>
    if k' = k then mapDelete rest k else (k', v) :: mapDelete rest k

/-- Utils.getTrafficColor (src/unnamed/part_003): CSS class for a congestion
level. -/
def getTrafficColor (congestion : ℚ) : String :=
  if congestion ≤ 0.3 then "smooth"
  else if congestion ≤ 0.7 then "moderate"
  else "heavy"

/-- Utils.calculateETA (src/unnamed/part_003): `new Date(Date.now() +
(distance/1000)/speed * 60*60*1000)`, modelled as the millisecond
timestamp of the returned Date. -/
def calculateETA (now : Nat) (distance speed : ℚ) : ℚ :=
  (now : ℚ) + distance / 1000 / speed * 60 * 60 * 1000

/-- One traffic point as produced by the background worker's
generateMockTrafficData (src/script.js). -/
structure TrafficPoint where
  id : String
  lat : ℚ
  lng : ℚ
  congestion : ℚ
  speed : ℤ
  timestamp : Nat
deriving DecidableEq

/-- Summary block of a traffic payload. Optional fields are present in
some producers and absent in others (`region` only in mock data, `error`
only in the fallback). -/
structure TrafficSummary where
  averageCongestion : ℚ
  averageSpeed : ℤ
  totalPoints : Nat
  lastUpdated : Nat
  region : Option String
  error : Option String
deriving DecidableEq

/-- Traffic payload: `{ points, summary }`. -/
structure TrafficData where
  points : List TrafficPoint
  summary : TrafficSummary
deriving DecidableEq

/-- One route suggestion. `eta` is the millisecond timestamp of the JS
Date; `tollCost` models `(5 + Math.random()*15).toFixed(2)` by its
numeric value (the 2-decimal string formatting is elided); optional
fields are absent in producers that do not set them. -/
structure Route where
  id : String
  name : String
  distance : ℤ
  duration : ℤ
  congestion : ℚ
  status : String
  eta : ℚ
  polyline : List (ℚ × ℚ)
  incidents : List String
  tollCost : Option ℚ
  error : Option String
deriving DecidableEq

/-- One sample of an analytics time series. -/
structure SeriesPoint where
  timestamp : ℤ
  value : ℚ
deriving DecidableEq

/-- Summary block of an analytics payload. -/
structure AnalyticsSummary where
  averageSpeed : ℚ
  averageDelay : ℚ
  peakCongestion : ℚ
  period : Option String
  error : Option String
deriving DecidableEq

/-- Analytics payload. -/
structure AnalyticsData where
  speedTrends : List SeriesPoint
  delayPatterns : List SeriesPoint
  congestionLevels : List SeriesPoint
  summary : AnalyticsSummary
deriving DecidableEq

/-- A JSON-serializable payload held in the cache or carried in a message
response: a traffic payload, a route list or an analytics payload. -/
inductive Payload where
  | traffic (d : TrafficData)
  | routes (rs : List Route)
  | analytics (d : AnalyticsData)
deriving DecidableEq

/-- One cache entry: `{ data, timestamp }` as written by setCache. -/
structure CacheEntry where
  data : Payload
  timestamp : Nat
deriving DecidableEq

/-- The DataManager state relevant to the cache layer: the `cache` Map and
`cacheTimeout` (the TTL in milliseconds). -/
structure DMState where
  cache : List (String × CacheEntry)
  cacheTimeout : Nat
deriving DecidableEq

/-- DataManager's initial state (src/unnamed/part_002 constructor):
empty cache, `cacheTimeout = 5 * 60 * 1000`. -/
def initState : DMState := { cache := [], cacheTimeout := 5 * 60 * 1000 }

/-- DataManager.getFromCache (src/unnamed/part_002 lines 356-366). Returns
the looked-up value and the possibly modified state: an entry older than
`cacheTimeout` is deleted when `ignoreTimeout` is false. -/
def getFromCache (s : DMState) (now : Nat) (key : String) (ignoreTimeout : Bool) :
    Option Payload × DMState :=
  match mapGet s.cache key with
  | none => (none, s)
  | some cached =>
    if ignoreTimeout = false ∧ now - cached.timestamp > s.cacheTimeout then
      (none, { s with cache := mapDelete s.cache key })
    else
      (some cached.data, s)

/-- DataManager.cleanupCache (src/unnamed/part_002 lines 386-393): delete
every entry older than `cacheTimeout * 2`. -/
def sweep (ttl now : Nat) : List (String × CacheEntry) → List (String × CacheEntry)
  | [] => []
  | (k, e) :: rest =>
    if now - e.timestamp > ttl * 2 then sweep ttl now rest
    else (k, e) :: sweep ttl now rest

/-- DataManager.cleanupCache as a state transformer. -/
def cleanupCache (s : DMState) (now : Nat) : DMState :=
  { s with cache := sweep s.cacheTimeout now s.cache }

/-- DataManager.setCache (src/unnamed/part_002 lines 373-381): store the
value with the current timestamp, then run the opportunistic sweep. -/
def setCache (s : DMState) (now : Nat) (key : String) (data : Payload) : DMState :=
  cleanupCache { s with cache := mapSet s.cache key ⟨data, now⟩ } now

/-- DataManager.clearCache (src/unnamed/part_002): remove all entries. -/
def clearCache (s : DMState) : DMState :=
  { s with cache := [] }

/-- DataManager.handleSettingsChange (src/unnamed/part_002 lines 431-435):
if `settings.refreshInterval` is defined, set the TTL to
`Math.max(refreshInterval, 30000)`. -/
def handleSettingsChange (s : DMState) (refreshInterval : Option Nat) : DMState :=
  match refreshInterval with
  | some r => { s with cacheTimeout := max r 30000 }
  | none => s

/-- DataManager.generateFallbackTrafficData (src/unnamed/part_002 lines
442-453). -/
def generateFallbackTrafficData (now : Nat) : TrafficData :=
  { points := []
    summary :=
      { averageCongestion := 0.5
        averageSpeed := 45
        totalPoints := 0
        lastUpdated := now
        region := none
        error := some "Unable to fetch real-time data" } }

/-- DataManager.generateFallbackRoutes (src/unnamed/part_002 lines
460-473). -/
def generateFallbackRoutes (now : Nat) : List Route :=
  [{ id := "fallback_route"
     name := "Default Route"
     distance := 20000
     duration := 30
     congestion := 0.5
     status := "moderate"
     eta := (now : ℚ) + 30 * 60000
     polyline := []
     incidents := []
     tollCost := none
     error := some "Unable to calculate optimal routes" }]

/-- DataManager.generateFallbackAnalytics (src/unnamed/part_002 lines
480-492). -/
def generateFallbackAnalytics : AnalyticsData :=
  { speedTrends := []
    delayPatterns := []
    congestionLevels := []
    summary :=
      { averageSpeed := 45
        averageDelay := 5
        peakCongestion := 0.7
        period := none
        error := some "Unable to fetch analytics data" } }

/-- Common shape of the three DataManager fetchers: cache check, transport
call, cache write and `dataUpdated` emission on success, stale-read or
fallback on failure. Each fetcher below is definitionally equal to this
with its own key and fallback; the result carries the payload, the new
state, and whether the Transport was invoked. `now₁` is the clock at the
initial cache check, `now₂` the clock after the awaited transport call. -/
def fetchWith (cacheKey : String) (fallback : Nat → Payload)
    (s : DMState) (now₁ now₂ : Nat) (transport : Except String Payload) :
    Payload × DMState × Bool :=
  match getFromCache s now₁ cacheKey false with
  | (some cachedData, s₁) => (cachedData, s₁, false)
  | (none, s₁) =>
    match transport with
    | Except.ok data => (data, setCache s₁ now₂ cacheKey data, true)
    | Except.error _ =>
      match getFromCache s₁ now₂ cacheKey true with
      | (some stale, s₂) => (stale, s₂, true)
      | (none, s₂) => (fallback now₂, s₂, true)

/-- DataManager.getTrafficData (src/unnamed/part_002 lines 43-82).
`paramsJson` stands for `JSON.stringify(params)`; the transport abstracts
`sendMessageToBackground` / `fetchTrafficDataDirect`. -/
def getTrafficData (s : DMState) (now₁ now₂ : Nat) (paramsJson : String)
    (transport : Except String Payload) : Payload × DMState × Bool :=
  let cacheKey := "traffic_" ++ paramsJson
  match getFromCache s now₁ cacheKey false with
  | (some cachedData, s₁) => (cachedData, s₁, false)
  | (none, s₁) =>
    match transport with
    | Except.ok data => (data, setCache s₁ now₂ cacheKey data, true)
    | Except.error _ =>
      match getFromCache s₁ now₂ cacheKey true with
      | (some stale, s₂) => (stale, s₂, true)
      | (none, s₂) => (Payload.traffic (generateFallbackTrafficData now₂), s₂, true)

/-- DataManager.getRouteSuggestions (src/unnamed/part_002 lines 89-123):
cache key `routes_${from}_${to}_${departureTime}`. -/
def getRouteSuggestions (s : DMState) (now₁ now₂ : Nat)
    (fromP toP departureTime : String)
    (transport : Except String Payload) : Payload × DMState × Bool :=
  let cacheKey := "routes_" ++ fromP ++ "_" ++ toP ++ "_" ++ departureTime
  match getFromCache s now₁ cacheKey false with
  | (some cachedData, s₁) => (cachedData, s₁, false)
  | (none, s₁) =>
    match transport with
    | Except.ok data => (data, setCache s₁ now₂ cacheKey data, true)
    | Except.error _ =>
      match getFromCache s₁ now₂ cacheKey true with
      | (some stale, s₂) => (stale, s₂, true)
      | (none, s₂) => (Payload.routes (generateFallbackRoutes now₂), s₂, true)

/-- DataManager.getAnalyticsData (src/unnamed/part_002 lines 130-153):
cache key `analytics_${JSON.stringify(params)}`. -/
def getAnalyticsData (s : DMState) (now₁ now₂ : Nat) (paramsJson : String)
    (transport : Except String Payload) : Payload × DMState × Bool :=
  let cacheKey := "analytics_" ++ paramsJson
  match getFromCache s now₁ cacheKey false with
  | (some cachedData, s₁) => (cachedData, s₁, false)
  | (none, s₁) =>
    match transport with
    | Except.ok data => (data, setCache s₁ now₂ cacheKey data, true)
    | Except.error _ =>
      match getFromCache s₁ now₂ cacheKey true with
      | (some stale, s₂) => (stale, s₂, true)
      | (none, s₂) => (Payload.analytics generateFallbackAnalytics, s₂, true)

/-- The background service worker's cache state (script.js:
`this.dataCache = new Map()`). -/
structure BGState where
  dataCache : List (String × CacheEntry)
deriving DecidableEq

/-- Time-of-day base congestion used by the background worker's
generateMockTrafficData (src/script.js): the last matching `if` wins. -/
def bgBaseCongestion (hour : Nat) : ℚ :=
  let b : ℚ := 0.3
  let b := if 7 ≤ hour ∧ hour ≤ 9 then 0.8 else b
  let b := if 17 ≤ hour ∧ hour ≤ 19 then 0.9 else b
  let b := if 12 ≤ hour ∧ hour ≤ 14 then 0.6 else b
  if 22 ≤ hour ∨ hour ≤ 5 then 0.1 else b

/-- One point of the background worker's mock traffic data; the i-th point
consumes the oracle draws 3i (congestion), 3i+1 (lat), 3i+2 (lng). -/
def bgMockPoint (now : Nat) (base : ℚ) (rnd : Nat → ℚ) (i : Nat) : TrafficPoint :=
  let congestion := max 0 (min 1 (base + (rnd (3 * i) - 0.5) * 0.4))
  { id := "point_" ++ toString i
    lat := 40.7128 + (rnd (3 * i + 1) - 0.5) * 0.1
    lng := -74.0060 + (rnd (3 * i + 2) - 0.5) * 0.1
    congestion := congestion
    speed := jsRound ((1 - congestion) * 80 + 20)
    timestamp := now }

/-- TrafficAnalyzerBackground.generateMockTrafficData (src/script.js):
50 random points plus a summary derived from the time-of-day base. -/
def bgGenerateMockTrafficData (now hour : Nat) (rnd : Nat → ℚ) : TrafficData :=
  let base := bgBaseCongestion hour
  let trafficPoints := (List.range 50).map (bgMockPoint now base rnd)
  { points := trafficPoints
    summary :=
      { averageCongestion := base
        averageSpeed := jsRound ((1 - base) * 80 + 20)
        totalPoints := trafficPoints.length
        lastUpdated := now
        region := none
        error := none } }

/-- TrafficAnalyzerBackground.getTrafficData (src/script.js lines
1343-1366): `cached` is read once before the freshness check; the
freshness window is the hard-coded 300000 ms; on transport failure the
previously read `cached` (stale or not) is served, else mock data.
`hour` and `rnd` feed generateMockTrafficData in the no-cache failure
branch. -/
def bgGetTrafficData (s : BGState) (now₁ now₂ : Nat) (paramsJson : String)
    (transport : Except String Payload) (hour : Nat) (rnd : Nat → ℚ) :
    Payload × BGState × Bool :=
  let cacheKey := "traffic_" ++ paramsJson
  let cached := mapGet s.dataCache cacheKey
  match cached with
  | some c =>
    if now₁ - c.timestamp < 300000 then (c.data, s, false)
    else
      match transport with
      | Except.ok data => (data, ⟨mapSet s.dataCache cacheKey ⟨data, now₂⟩⟩, true)
      | Except.error _ => (c.data, s, true)
  | none =>
    match transport with
    | Except.ok data => (data, ⟨mapSet s.dataCache cacheKey ⟨data, now₂⟩⟩, true)
    | Except.error _ =>
      (Payload.traffic (bgGenerateMockTrafficData now₂ hour rnd), s, true)

/-- Route-duration comparison used by the `.sort((a, b) => a.duration -
b.duration)` calls: ascending duration. -/
def routeLE (a b : Route) : Prop := a.duration ≤ b.duration

instance : DecidableRel routeLE := fun a b =>
  inferInstanceAs (Decidable (a.duration ≤ b.duration))

instance : IsTotal Route routeLE := ⟨fun a b => Int.le_total a.duration b.duration⟩

instance : IsTrans Route routeLE := ⟨fun _ _ _ hab hbc => le_trans hab hbc⟩

/-- Loop body of DataManager.generateMockPolyline (src/unnamed/part_002
lines 282-294): `n` points left to produce, oracle position `k`; each
point consumes two draws (lat then lng). Returns the points and the next
oracle position. -/
def polylinePoints (rnd : Nat → ℚ) : Nat → Nat → List (ℚ × ℚ) × Nat
  | 0, k => ([], k)
  | n + 1, k =>
    let lat := 40.7128 + (rnd k - 0.5) * 0.1
    let lng := -74.0060 + (rnd (k + 1) - 0.5) * 0.1
    let (rest, k') := polylinePoints rnd n (k + 2)
    ((lat, lng) :: rest, k')

/-- DataManager.generateMockPolyline: 21 points (`for i = 0; i <= 20`). -/
def generateMockPolyline (rnd : Nat → ℚ) (k : Nat) : List (ℚ × ℚ) × Nat :=
  polylinePoints rnd 21 k

/-- JS `Number.prototype.toFixed(2)` modelled by its numeric value. -/
def toFixed2 (x : ℚ) : ℚ := (jsRound (x * 100) : ℚ) / 100

/-- Route-name table of DataManager.generateMockRoutes. -/
def routeNames : List String := ["Via Highway", "Scenic Route", "Fastest Route"]

/-- One iteration of the DataManager.generateMockRoutes loop
(src/unnamed/part_002 lines 256-273) for index `i` at oracle position `k`,
with draws consumed in source evaluation order: baseDistance,
baseDuration, congestionFactor, the 42 polyline draws, the incidents
draw, the tollCost draw and (when taken) the toll amount draw. -/
def mkRoute (now : Nat) (rnd : Nat → ℚ) (i k : Nat) : Route × Nat :=
  let baseDistance := 15000 + rnd k * 10000
  let baseDuration := 20 + rnd (k + 1) * 20
  let congestionFactor := 0.2 + rnd (k + 2) * 0.8
  let (polyline, k₁) := generateMockPolyline rnd (k + 3)
  let incidents := if rnd k₁ < 0.3 then ["Construction ahead"] else []
  let (tollCost, k₂) :=
    if rnd (k₁ + 1) < 0.4 then (some (toFixed2 (5 + rnd (k₁ + 2) * 15)), k₁ + 3)
    else (none, k₁ + 2)
  ({ id := "route_" ++ toString i
     name := (routeNames[i]?).getD ""
     distance := jsRound baseDistance
     duration := jsRound (baseDuration * (1 + congestionFactor * 0.5))
     congestion := congestionFactor
     status := getTrafficColor congestionFactor
     eta := calculateETA now baseDistance ((1 - congestionFactor) * 60 + 20)
     polyline := polyline
     incidents := incidents
     tollCost := tollCost
     error := none }, k₂)

/-- DataManager.generateMockRoutes (src/unnamed/part_002 lines 252-276):
three random routes, then `routes.sort((a, b) => a.duration - b.duration)`
(a consistent numeric comparator, so the result is the list sorted by
ascending duration; modelled by insertion sort w.r.t. `routeLE`). -/
def generateMockRoutes (now : Nat) (rnd : Nat → ℚ) : List Route :=
  let p0 := mkRoute now rnd 0 0
  let p1 := mkRoute now rnd 1 p0.2
  let p2 := mkRoute now rnd 2 p1.2
  List.insertionSort routeLE [p0.1, p1.1, p2.1]

/-- Loop body of the background worker's generateMockPolyline
(src/script.js lines 1468-1489): interpolates between `fromLoc` and
`toLoc` over `steps = 20`, with two random offset draws per point. -/
def bgPolylineGo (fromLoc toLoc : ℚ × ℚ) (rnd : Nat → ℚ) :
    Nat → Nat → Nat → List (ℚ × ℚ) × Nat
  | _, 0, k => ([], k)
  | i, n + 1, k =>
    let progress : ℚ := (i : ℚ) / 20
    let lat := fromLoc.1 + (toLoc.1 - fromLoc.1) * progress
    let lng := fromLoc.2 + (toLoc.2 - fromLoc.2) * progress
    let offsetLat := (rnd k - 0.5) * 0.01
    let offsetLng := (rnd (k + 1) - 0.5) * 0.01
    let (rest, k') := bgPolylineGo fromLoc toLoc rnd (i + 1) n (k + 2)
    ((lat + offsetLat, lng + offsetLng) :: rest, k')

/-- TrafficAnalyzerBackground.generateMockPolyline: 21 interpolated
points. -/
def bgGenerateMockPolyline (fromLoc toLoc : ℚ × ℚ) (rnd : Nat → ℚ) (k : Nat) :
    List (ℚ × ℚ) × Nat :=
  bgPolylineGo fromLoc toLoc rnd 0 21 k

/-- One iteration of the TrafficAnalyzerBackground.getRouteSuggestions
loop (src/script.js lines 1437-1456). -/
def bgMkRoute (now : Nat) (fromLoc toLoc : ℚ × ℚ) (rnd : Nat → ℚ) (i k : Nat) :
    Route × Nat :=
  let baseDistance := 15000 + rnd k * 10000
  let baseDuration := 20 + rnd (k + 1) * 20
  let congestionFactor := 0.3 + rnd (k + 2) * 0.7
  let (polyline, k₁) := bgGenerateMockPolyline fromLoc toLoc rnd (k + 3)
  let incidents := if rnd k₁ < 0.3 then ["Minor traffic incident"] else []
  ({ id := "route_" ++ toString i
     name := "Route " ++ toString (i + 1)
     distance := jsRound baseDistance
     duration := jsRound (baseDuration * (1 + congestionFactor * 0.5))
     congestion := congestionFactor
     status :=
       if congestionFactor ≤ 0.4 then "optimal"
       else if congestionFactor ≤ 0.7 then "moderate"
       else "congested"
     eta := (now : ℚ) + baseDuration * (1 + congestionFactor * 0.5) * 60000
     polyline := polyline
     incidents := incidents
     tollCost := none
     error := none }, k₁ + 1)

/-- TrafficAnalyzerBackground.getRouteSuggestions (src/script.js lines
1431-1461): three random routes, then `routes.sort((a, b) => a.duration -
b.duration)` (fastest first). -/
def bgGetRouteSuggestions (now : Nat) (fromLoc toLoc : ℚ × ℚ) (rnd : Nat → ℚ) :
    List Route :=
  let p0 := bgMkRoute now fromLoc toLoc rnd 0 0
  let p1 := bgMkRoute now fromLoc toLoc rnd 1 p0.2
  let p2 := bgMkRoute now fromLoc toLoc rnd 2 p1.2
  List.insertionSort routeLE [p0.1, p1.1, p2.1]

/-- One DataManager operation, for stating state invariants over arbitrary
operation sequences. Fetch operations carry their clock readings, request
parameters and transport outcome. -/
inductive DMOp where
  | getTraffic (now₁ now₂ : Nat) (paramsJson : String) (tr : Except String Payload)
  | getRoutes (now₁ now₂ : Nat) (fromP toP departureTime : String)
      (tr : Except String Payload)
  | getAnalytics (now₁ now₂ : Nat) (paramsJson : String) (tr : Except String Payload)
  | getOp (now : Nat) (key : String) (ignoreTimeout : Bool)
  | setOp (now : Nat) (key : String) (v : Payload)
  | cleanupOp (now : Nat)
  | clearOp
  | settingsOp (refreshInterval : Option Nat)

/-- State transition of one DataManager operation. -/
def dmStep (s : DMState) : DMOp → DMState
  | .getTraffic n₁ n₂ pj tr => (getTrafficData s n₁ n₂ pj tr).2.1
  | .getRoutes n₁ n₂ f t dep tr => (getRouteSuggestions s n₁ n₂ f t dep tr).2.1
  | .getAnalytics n₁ n₂ pj tr => (getAnalyticsData s n₁ n₂ pj tr).2.1
  | .getOp now key ig => (getFromCache s now key ig).2
  | .setOp now key v => setCache s now key v
  | .cleanupOp now => cleanupCache s now
  | .clearOp => clearCache s
  | .settingsOp r => handleSettingsChange s r

/-- Utils.events (src/unnamed/part_003 lines 309-331): the process-local
event bus; `listeners` maps an event name to the array of registered
handlers, in registration order. `H` is the handler type. -/
structure EventBus (H : Type) where
  listeners : List (String × List H)

/-- Utils.events.on: create the array if missing, then push the handler. -/
def busOn {H : Type} (b : EventBus H) (event : String) (h : H) : EventBus H :=
  match mapGet b.listeners event with
  | none => ⟨mapSet b.listeners event [h]⟩
  | some arr => ⟨mapSet b.listeners event (arr ++ [h])⟩

/-- Utils.events.off: `indexOf` + `splice(index, 1)` removes the first
matching registration, if any. -/
def removeFirst {H : Type} [DecidableEq H] (h : H) : List H → List H
  | [] => []
  | h' :: rest => if h' = h then rest else h' :: removeFirst h rest

/-- Utils.events.off as a state transformer. -/
def busOff {H : Type} [DecidableEq H] (b : EventBus H) (event : String) (h : H) :
    EventBus H :=
  match mapGet b.listeners event with
  | none => b
  | some arr => ⟨mapSet b.listeners event (removeFirst h arr)⟩

/-- Effect of invoking one handler: the `on` registrations the handler
performs during its run (no handler in this repository calls `off`), as a
function of the emitted payload. Registrations are applied left to
right. -/
def applyRegs {H : Type} (b : EventBus H) : List (String × H) → EventBus H
  | [] => b
  | (ev, h) :: rest => applyRegs (busOn b ev h) rest

/-- Loop of Utils.events.emit: `listeners[event].forEach(cb => cb(data))`.
JS `forEach` caches the array length when iteration starts and reads the
live array at each index, so handlers appended during the emission (their
indices are past the cached length) are not visited. `k` is the current
index, `rem` the number of indices left under the cached length, `act`
gives each handler's registrations, `log` accumulates the handlers
invoked, in order. -/
def emitLoop {H P : Type} (act : H → P → List (String × H)) (event : String) (x : P) :
    Nat → Nat → EventBus H → List H → EventBus H × List H
  | _, 0, b, log => (b, log)
  | k, rem + 1, b, log =>
    match ((mapGet b.listeners event).getD [])[k]? with
    | some h => emitLoop act event x (k + 1) rem (applyRegs b (act h x)) (log ++ [h])
    | none => emitLoop act event x (k + 1) rem b log

/-- Utils.events.emit: return immediately when no array is registered for
the event, else run the forEach loop over the cached length. The second
component is the sequence of handlers invoked. -/
def emit {H P : Type} (act : H → P → List (String × H)) (b : EventBus H)
    (event : String) (x : P) : EventBus H × List H :=
  match mapGet b.listeners event with
  | none => (b, [])
  | some arr => emitLoop act event x 0 arr.length b []

/-- A message response as delivered to the sendMessage callback:
`{ success, data, error }`, each of the latter two possibly absent. -/
structure Response where
  success : Bool
  data : Option Payload
  error : Option String
deriving DecidableEq

/-- What the extension runtime delivers to the sendMessage callback:
either a channel failure (chrome.runtime.lastError is set and the
response argument is undefined), or a reply, which may itself be absent
when the receiver sent none. -/
inductive ChannelOutcome where
  | channelError (msg : String)
  | reply (response : Option Response)
deriving DecidableEq

/-- JS `x || dflt` for a string-or-undefined `x`: the empty string is
falsy. -/
def jsStringOr (o : Option String) (dflt : String) : String :=
  match o with
  | some s => if s = "" then dflt else s
  | none => dflt

/-- DataManager.sendMessageToBackground (src/unnamed/part_002 lines
160-172): the Promise resolves (`Except.ok`) with `response.data` when a
response arrived with `success` true, and rejects (`Except.error`)
otherwise — with the channel's message on a channel failure, else with
`response?.error || 'Unknown error'`. -/
def sendMessageToBackground (outcome : ChannelOutcome) : Except String (Option Payload) :=
  match outcome with
  | .channelError msg => Except.error msg
  | .reply response =>
    match response with
    | some r =>
      if r.success then Except.ok r.data
      else Except.error (jsStringOr r.error "Unknown error")
    | none => Except.error "Unknown error"

/-- Page-visit record built by getCurrentPageData (src/src/content.js). -/
structure PageData where
  url : String
  domain : String
  title : String
  timestamp : Nat
deriving DecidableEq

/-- Tab record stored by the background tab-update listener
(src/src/background.js); `title` may be undefined. -/
structure TabData where
  url : String
  title : Option String
  timestamp : Nat
deriving DecidableEq

/-- The storage update of storePageData (src/src/content.js lines 14-35):
`sites.unshift(pageData)`, then `splice(10)` keeps the first 10; `stored`
is the previously persisted `visitedSites` value (`|| []` when absent). -/
def storePageData (stored : Option (List PageData)) (pageData : PageData) :
    List PageData :=
  let sites := pageData :: stored.getD []
  if sites.length > 10 then sites.take 10 else sites

/-- The storage update of the chrome.tabs.onUpdated listener
(src/src/background.js lines 15-39): `tabs.unshift(tabData)`, then
`splice(20)` keeps the first 20. -/
def storeTabData (stored : Option (List TabData)) (tabData : TabData) :
    List TabData :=
  let tabs := tabData :: stored.getD []
  if tabs.length > 20 then tabs.take 20 else tabs

/-- A small concrete traffic payload used to instantiate theorems at
concrete inputs. -/
def samplePayload : Payload :=
  Payload.traffic
    { points := []
      summary :=
        { averageCongestion := 0
          averageSpeed := 50
          totalPoints := 0
          lastUpdated := 0
          region := none
          error := none } }

/-! Helper lemmas about the Map model and the cache operations. -/

theorem mapGet_mapSet_self {β : Type} (m : List (String × β)) (k : String) (v : β) :
    mapGet (mapSet m k v) k = some v := by
  induction m with
  | nil => simp [mapSet, mapGet]
  | cons p rest ih =>
    obtain ⟨k', v'⟩ := p
    by_cases h : k' = k
    · simp [mapSet, h, mapGet]
    · simp [mapSet, h, mapGet, ih]

theorem mapGet_mapDelete_self {β : Type} (m : List (String × β)) (k : String) :
    mapGet (mapDelete m k) k = none := by
  induction m with
  | nil => simp [mapDelete, mapGet]
  | cons p rest ih =>
    obtain ⟨k', v'⟩ := p
    by_cases h : k' = k
    · simp [mapDelete, h, ih]
    · simp [mapDelete, h, mapGet, ih]

theorem mapGet_sweep_now {m : List (String × CacheEntry)} {ttl now : Nat}
    {k : String} {d : Payload} :
    mapGet (sweep ttl now (mapSet m k ⟨d, now⟩)) k = some ⟨d, now⟩ := by
  induction m with
  | nil => simp [mapSet, sweep, mapGet]
  | cons p rest ih =>
    obtain ⟨k', e'⟩ := p
    by_cases h : k' = k
    · simp [mapSet, h, sweep, mapGet]
    · by_cases hold : now - e'.timestamp > ttl * 2
      · simpa [mapSet, h, sweep, hold] using ih
      · simpa [mapSet, h, sweep, hold, mapGet] using ih

theorem mapGet_setCache_self (s : DMState) (now : Nat) (key : String) (d : Payload) :
    mapGet (setCache s now key d).cache key = some ⟨d, now⟩ :=
  mapGet_sweep_now

theorem setCache_cacheTimeout (s : DMState) (now : Nat) (key : String) (d : Payload) :
    (setCache s now key d).cacheTimeout = s.cacheTimeout := rfl

theorem getFromCache_cacheTimeout (s : DMState) (now : Nat) (key : String) (ig : Bool) :
    ((getFromCache s now key ig).2).cacheTimeout = s.cacheTimeout := by
  unfold getFromCache
  cases mapGet s.cache key with
  | none => rfl
  | some c =>
    dsimp only
    split <;> rfl

theorem getFromCache_none {s : DMState} {now : Nat} {key : String} {ig : Bool}
    (hm : mapGet s.cache key = none) :
    getFromCache s now key ig = (none, s) := by
  unfold getFromCache
  rw [hm]

theorem getFromCache_fresh {s : DMState} {now : Nat} {key : String} {e : CacheEntry}
    (hm : mapGet s.cache key = some e)
    (hfresh : ¬ now - e.timestamp > s.cacheTimeout) :
    getFromCache s now key false = (some e.data, s) := by
  unfold getFromCache
  rw [hm]
  simp [hfresh]

theorem getFromCache_stale {s : DMState} {now : Nat} {key : String} {e : CacheEntry}
    (hm : mapGet s.cache key = some e)
    (hstale : now - e.timestamp > s.cacheTimeout) :
    getFromCache s now key false = (none, { s with cache := mapDelete s.cache key }) := by
  unfold getFromCache
  rw [hm]
  simp [hstale]

theorem getFromCache_ignore {s : DMState} {now : Nat} {key : String} {e : CacheEntry}
    (hm : mapGet s.cache key = some e) :
    getFromCache s now key true = (some e.data, s) := by
  unfold getFromCache
  rw [hm]
  simp

/-! Helper lemmas about the common fetcher shape. -/

theorem getTrafficData_eq_fetchWith (s : DMState) (now₁ now₂ : Nat) (pj : String)
    (tr : Except String Payload) :
    getTrafficData s now₁ now₂ pj tr =
      fetchWith ("traffic_" ++ pj)
        (fun n => Payload.traffic (generateFallbackTrafficData n)) s now₁ now₂ tr := rfl

theorem getRouteSuggestions_eq_fetchWith (s : DMState) (now₁ now₂ : Nat)
    (fromP toP dep : String) (tr : Except String Payload) :
    getRouteSuggestions s now₁ now₂ fromP toP dep tr =
      fetchWith ("routes_" ++ fromP ++ "_" ++ toP ++ "_" ++ dep)
        (fun n => Payload.routes (generateFallbackRoutes n)) s now₁ now₂ tr := rfl

theorem getAnalyticsData_eq_fetchWith (s : DMState) (now₁ now₂ : Nat) (pj : String)
    (tr : Except String Payload) :
    getAnalyticsData s now₁ now₂ pj tr =
      fetchWith ("analytics_" ++ pj)
        (fun _ => Payload.analytics generateFallbackAnalytics) s now₁ now₂ tr := rfl

theorem fetchWith_hit {key : String} {fb : Nat → Payload} {s : DMState}
    {now₁ now₂ : Nat} {tr : Except String Payload} {e : CacheEntry}
    (hm : mapGet s.cache key = some e)
    (hfresh : ¬ now₁ - e.timestamp > s.cacheTimeout) :
    fetchWith key fb s now₁ now₂ tr = (e.data, s, false) := by
  unfold fetchWith
  rw [getFromCache_fresh hm hfresh]

theorem fetchWith_payload (key : String) (fb : Nat → Payload) (s : DMState)
    (now₁ now₂ : Nat) (tr : Except String Payload) :
    (∃ e, mapGet s.cache key = some e ∧ (fetchWith key fb s now₁ now₂ tr).1 = e.data) ∨
    (∃ v, tr = Except.ok v ∧ (fetchWith key fb s now₁ now₂ tr).1 = v) ∨
    (fetchWith key fb s now₁ now₂ tr).1 = fb now₂ := by
  cases hm : mapGet s.cache key with
  | none =>
    unfold fetchWith
    rw [getFromCache_none hm]
    dsimp only
    cases tr with
    | ok v => exact Or.inr (Or.inl ⟨v, rfl, rfl⟩)
    | error msg =>
      rw [getFromCache_none hm]
      exact Or.inr (Or.inr rfl)
  | some e =>
    by_cases hfr : now₁ - e.timestamp > s.cacheTimeout
    · unfold fetchWith
      rw [getFromCache_stale hm hfr]
      dsimp only
      cases tr with
      | ok v => exact Or.inr (Or.inl ⟨v, rfl, rfl⟩)
      | error msg =>
        rw [getFromCache_none (s := { s with cache := mapDelete s.cache key })
          (mapGet_mapDelete_self s.cache key)]
        exact Or.inr (Or.inr rfl)
    · rw [fetchWith_hit hm hfr]
      exact Or.inl ⟨e, rfl, rfl⟩

theorem fetchWith_cacheTimeout (key : String) (fb : Nat → Payload) (s : DMState)
    (now₁ now₂ : Nat) (tr : Except String Payload) :
    ((fetchWith key fb s now₁ now₂ tr).2.1).cacheTimeout = s.cacheTimeout := by
  cases hm : mapGet s.cache key with
  | none =>
    unfold fetchWith
    rw [getFromCache_none hm]
    dsimp only
    cases tr with
    | ok v => rfl
    | error msg =>
      rw [getFromCache_none hm]
  | some e =>
    by_cases hfr : now₁ - e.timestamp > s.cacheTimeout
    · unfold fetchWith
      rw [getFromCache_stale hm hfr]
      dsimp only
      cases tr with
      | ok v => rfl
      | error msg =>
        rw [getFromCache_none (s := { s with cache := mapDelete s.cache key })
          (mapGet_mapDelete_self s.cache key)]
    · rw [fetchWith_hit hm hfr]

theorem fetchWith_ok_cases (key : String) (fb : Nat → Payload) (s : DMState)
    (τ₁ τ₁' : Nat) (v : Payload) :
    ((fetchWith key fb s τ₁ τ₁' (Except.ok v)).2.2 = false ∧
      (fetchWith key fb s τ₁ τ₁' (Except.ok v)).2.1 = s) ∨
    (∃ base : DMState, base.cacheTimeout = s.cacheTimeout ∧
      (fetchWith key fb s τ₁ τ₁' (Except.ok v)).2.1 = setCache base τ₁' key v) := by
  cases hm : mapGet s.cache key with
  | none =>
    refine Or.inr ⟨s, rfl, ?_⟩
    unfold fetchWith
    rw [getFromCache_none hm]
  | some e =>
    by_cases hfr : τ₁ - e.timestamp > s.cacheTimeout
    · refine Or.inr ⟨{ s with cache := mapDelete s.cache key }, rfl, ?_⟩
      unfold fetchWith
      rw [getFromCache_stale hm hfr]
    · rw [fetchWith_hit hm hfr]
      exact Or.inl ⟨rfl, rfl⟩

theorem transport_flag_le_one (r : Payload × DMState × Bool) :
    (if r.2.2 then 1 else 0) ≤ 1 := by
  split <;> simp

theorem fetchWith_two_calls (key : String) (fb : Nat → Payload) (s : DMState)
    (τ₁ τ₁' τ₂ τ₂' : Nat) (v : Payload) (tr₂ : Except String Payload)
    (hfresh2 : τ₂ - τ₁' ≤ s.cacheTimeout) :
    (if (fetchWith key fb s τ₁ τ₁' (Except.ok v)).2.2 then 1 else 0) +
      (if (fetchWith key fb (fetchWith key fb s τ₁ τ₁' (Except.ok v)).2.1
            τ₂ τ₂' tr₂).2.2 then 1 else 0) ≤ 1 := by
  rcases fetchWith_ok_cases key fb s τ₁ τ₁' v with ⟨h1, _⟩ | ⟨base, hbt, h2⟩
  · rw [h1]
    simpa using transport_flag_le_one (fetchWith key fb
      (fetchWith key fb s τ₁ τ₁' (Except.ok v)).2.1 τ₂ τ₂' tr₂)
  · rw [h2]
    have hm := mapGet_setCache_self base τ₁' key v
    have hfr : ¬ τ₂ - (⟨v, τ₁'⟩ : CacheEntry).timestamp >
        (setCache base τ₁' key v).cacheTimeout := by
      rw [setCache_cacheTimeout, hbt]
      exact Nat.not_lt.mpr hfresh2
    rw [fetchWith_hit hm hfr]
    simpa using transport_flag_le_one (fetchWith key fb s τ₁ τ₁' (Except.ok v))

/-! Claim theorems for the Request Coordinator. -/

/-- C3: for every state, clock readings, request parameters and Transport
outcome (success or rejection), each DataManager fetcher resolves with a
payload — the cached entry's value, the transport's success value, or the
kind-specific fixed fallback — and never propagates the transport
rejection to the caller. -/
theorem dataManager_fetch_always_resolves :
    ∀ (s : DMState) (now₁ now₂ : Nat) (pj fromP toP dep : String)
      (tr : Except String Payload),
      ((∃ e, mapGet s.cache ("traffic_" ++ pj) = some e ∧
          (getTrafficData s now₁ now₂ pj tr).1 = e.data) ∨
        (∃ v, tr = Except.ok v ∧ (getTrafficData s now₁ now₂ pj tr).1 = v) ∨
        (getTrafficData s now₁ now₂ pj tr).1 =
          Payload.traffic (generateFallbackTrafficData now₂)) ∧
      ((∃ e, mapGet s.cache ("routes_" ++ fromP ++ "_" ++ toP ++ "_" ++ dep) = some e ∧
          (getRouteSuggestions s now₁ now₂ fromP toP dep tr).1 = e.data) ∨
        (∃ v, tr = Except.ok v ∧
          (getRouteSuggestions s now₁ now₂ fromP toP dep tr).1 = v) ∨
        (getRouteSuggestions s now₁ now₂ fromP toP dep tr).1 =
          Payload.routes (generateFallbackRoutes now₂)) ∧
      ((∃ e, mapGet s.cache ("analytics_" ++ pj) = some e ∧
          (getAnalyticsData s now₁ now₂ pj tr).1 = e.data) ∨
        (∃ v, tr = Except.ok v ∧ (getAnalyticsData s now₁ now₂ pj tr).1 = v) ∨
        (getAnalyticsData s now₁ now₂ pj tr).1 =
          Payload.analytics generateFallbackAnalytics) := by
  intro s now₁ now₂ pj fromP toP dep tr
  refine ⟨?_, ?_, ?_⟩
  · rw [getTrafficData_eq_fetchWith]
    exact fetchWith_payload _ _ s now₁ now₂ tr
  · rw [getRouteSuggestions_eq_fetchWith]
    exact fetchWith_payload _ _ s now₁ now₂ tr
  · rw [getAnalyticsData_eq_fetchWith]
    exact fetchWith_payload _ _ s now₁ now₂ tr

/-- C4: a fresh cache entry short-circuits each fetcher — the cached value
is returned, the state is untouched and the Transport is not invoked — and
consequently two sequential calls with identical params, the first of
which completes with a transport success (caching its result) before the
second starts within the TTL, invoke the Transport at most once in
total. -/
theorem fetch_cache_hit_no_transport :
    (∀ (s : DMState) (now₁ now₂ : Nat) (pj : String) (tr : Except String Payload)
        (e : CacheEntry), mapGet s.cache ("traffic_" ++ pj) = some e →
        ¬ now₁ - e.timestamp > s.cacheTimeout →
        getTrafficData s now₁ now₂ pj tr = (e.data, s, false)) ∧
    (∀ (s : DMState) (τ₁ τ₁' τ₂ τ₂' : Nat) (pj : String) (v : Payload)
        (tr₂ : Except String Payload), τ₂ - τ₁' ≤ s.cacheTimeout →
        (if (getTrafficData s τ₁ τ₁' pj (Except.ok v)).2.2 then 1 else 0) +
          (if (getTrafficData (getTrafficData s τ₁ τ₁' pj (Except.ok v)).2.1
                τ₂ τ₂' pj tr₂).2.2 then 1 else 0) ≤ 1) ∧
    (∀ (s : DMState) (now₁ now₂ : Nat) (fromP toP dep : String)
        (tr : Except String Payload) (e : CacheEntry),
        mapGet s.cache ("routes_" ++ fromP ++ "_" ++ toP ++ "_" ++ dep) = some e →
        ¬ now₁ - e.timestamp > s.cacheTimeout →
        getRouteSuggestions s now₁ now₂ fromP toP dep tr = (e.data, s, false)) ∧
    (∀ (s : DMState) (τ₁ τ₁' τ₂ τ₂' : Nat) (fromP toP dep : String) (v : Payload)
        (tr₂ : Except String Payload), τ₂ - τ₁' ≤ s.cacheTimeout →
        (if (getRouteSuggestions s τ₁ τ₁' fromP toP dep (Except.ok v)).2.2
            then 1 else 0) +
          (if (getRouteSuggestions
                (getRouteSuggestions s τ₁ τ₁' fromP toP dep (Except.ok v)).2.1
                τ₂ τ₂' fromP toP dep tr₂).2.2 then 1 else 0) ≤ 1) ∧
    (∀ (s : DMState) (now₁ now₂ : Nat) (pj : String) (tr : Except String Payload)
        (e : CacheEntry), mapGet s.cache ("analytics_" ++ pj) = some e →
        ¬ now₁ - e.timestamp > s.cacheTimeout →
        getAnalyticsData s now₁ now₂ pj tr = (e.data, s, false)) ∧
    (∀ (s : DMState) (τ₁ τ₁' τ₂ τ₂' : Nat) (pj : String) (v : Payload)
        (tr₂ : Except String Payload), τ₂ - τ₁' ≤ s.cacheTimeout →
        (if (getAnalyticsData s τ₁ τ₁' pj (Except.ok v)).2.2 then 1 else 0) +
          (if (getAnalyticsData (getAnalyticsData s τ₁ τ₁' pj (Except.ok v)).2.1
                τ₂ τ₂' pj tr₂).2.2 then 1 else 0) ≤ 1) := by
  refine ⟨?_, ?_, ?_, ?_, ?_, ?_⟩
  · intro s now₁ now₂ pj tr e hm hfr
    rw [getTrafficData_eq_fetchWith]
    exact fetchWith_hit hm hfr
  · intro s τ₁ τ₁' τ₂ τ₂' pj v tr₂ h
    simp only [getTrafficData_eq_fetchWith]
    exact fetchWith_two_calls _ _ s τ₁ τ₁' τ₂ τ₂' v tr₂ h
  · intro s now₁ now₂ fromP toP dep tr e hm hfr
    rw [getRouteSuggestions_eq_fetchWith]
    exact fetchWith_hit hm hfr
  · intro s τ₁ τ₁' τ₂ τ₂' fromP toP dep v tr₂ h
    simp only [getRouteSuggestions_eq_fetchWith]
    exact fetchWith_two_calls _ _ s τ₁ τ₁' τ₂ τ₂' v tr₂ h
  · intro s now₁ now₂ pj tr e hm hfr
    rw [getAnalyticsData_eq_fetchWith]
    exact fetchWith_hit hm hfr
  · intro s τ₁ τ₁' τ₂ τ₂' pj v tr₂ h
    simp only [getAnalyticsData_eq_fetchWith]
    exact fetchWith_two_calls _ _ s τ₁ τ₁' τ₂ τ₂' v tr₂ h

/-- Witness for the C4 theorem at a concrete state: a fresh hit returns
the cached value without invoking the transport, and a miss-then-hit pair
of calls invokes the transport once. -/
theorem fetch_cache_hit_no_transport_witness :
    getTrafficData ⟨[("traffic_p", ⟨samplePayload, 100⟩)], 30000⟩ 100 100 "p"
        (Except.error "down") =
      (samplePayload, ⟨[("traffic_p", ⟨samplePayload, 100⟩)], 30000⟩, false) ∧
    (if (getTrafficData ⟨[], 30000⟩ 0 5 "p" (Except.ok samplePayload)).2.2
        then 1 else 0) +
      (if (getTrafficData
            (getTrafficData ⟨[], 30000⟩ 0 5 "p" (Except.ok samplePayload)).2.1
            10 10 "p" (Except.ok samplePayload)).2.2 then 1 else 0) ≤ 1 :=
  ⟨fetch_cache_hit_no_transport.1 _ 100 100 "p" _ ⟨samplePayload, 100⟩
      (by decide) (by decide),
    fetch_cache_hit_no_transport.2.1 _ 0 5 10 10 "p" samplePayload _ (by decide)⟩

/-- C5: a setCache immediately followed by a getFromCache within the TTL
returns the value just written; the opportunistic sweep run by setCache
does not remove the entry just written (it is present, with the write
timestamp, right after the set). -/
theorem setCache_freshness :
    ∀ (s : DMState) (now now' : Nat) (key : String) (v : Payload),
      now' - now < s.cacheTimeout →
      mapGet (setCache s now key v).cache key = some ⟨v, now⟩ ∧
      (getFromCache (setCache s now key v) now' key false).1 = some v := by
  intro s now now' key v h
  refine ⟨mapGet_setCache_self s now key v, ?_⟩
  have hfr : ¬ now' - (⟨v, now⟩ : CacheEntry).timestamp >
      (setCache s now key v).cacheTimeout := by
    rw [setCache_cacheTimeout]
    exact Nat.lt_asymm h
  rw [getFromCache_fresh (mapGet_setCache_self s now key v) hfr]

/-- Witness for the C5 theorem at a concrete state. -/
theorem setCache_freshness_witness :
    mapGet (setCache ⟨[], 30000⟩ 0 "k" samplePayload).cache "k" =
      some ⟨samplePayload, 0⟩ ∧
    (getFromCache (setCache ⟨[], 30000⟩ 0 "k" samplePayload) 10 "k" false).1 =
      some samplePayload :=
  setCache_freshness _ 0 10 "k" samplePayload (by decide)

/-- One DataManager operation keeps the TTL at or above 30000 ms. -/
theorem dmStep_cacheTimeout_ge (s : DMState) (op : DMOp)
    (h : 30000 ≤ s.cacheTimeout) : 30000 ≤ (dmStep s op).cacheTimeout := by
  cases op with
  | getTraffic n₁ n₂ pj tr =>
    show 30000 ≤ (getTrafficData s n₁ n₂ pj tr).2.1.cacheTimeout
    rw [getTrafficData_eq_fetchWith, fetchWith_cacheTimeout]
    exact h
  | getRoutes n₁ n₂ f t dep tr =>
    show 30000 ≤ (getRouteSuggestions s n₁ n₂ f t dep tr).2.1.cacheTimeout
    rw [getRouteSuggestions_eq_fetchWith, fetchWith_cacheTimeout]
    exact h
  | getAnalytics n₁ n₂ pj tr =>
    show 30000 ≤ (getAnalyticsData s n₁ n₂ pj tr).2.1.cacheTimeout
    rw [getAnalyticsData_eq_fetchWith, fetchWith_cacheTimeout]
    exact h
  | getOp now key ig =>
    show 30000 ≤ (getFromCache s now key ig).2.cacheTimeout
    rw [getFromCache_cacheTimeout]
    exact h
  | setOp now key v => exact h
  | cleanupOp now => exact h
  | clearOp => exact h
  | settingsOp r =>
    cases r with
    | none => exact h
    | some n => exact le_max_right n 30000

/-- Operation sequences keep the TTL at or above 30000 ms. -/
theorem foldl_dmStep_cacheTimeout_ge (ops : List DMOp) :
    ∀ s : DMState, 30000 ≤ s.cacheTimeout →
      30000 ≤ (List.foldl dmStep s ops).cacheTimeout := by
  induction ops with
  | nil => intro s h; simpa using h
  | cons op rest ih =>
    intro s h
    exact ih _ (dmStep_cacheTimeout_ge s op h)

/-- C6: starting from the DataManager's initial state (TTL 300000 ms),
after any sequence of operations — fetches, cache reads/writes, sweeps,
clears and settings changes with any (possibly zero or tiny)
refreshInterval — the TTL `cacheTimeout` is at least 30000 ms, because
handleSettingsChange clamps with `Math.max(refreshInterval, 30000)`. -/
theorem cacheTimeout_min_invariant :
    ∀ ops : List DMOp, 30000 ≤ (List.foldl dmStep initState ops).cacheTimeout := by
  intro ops
  exact foldl_dmStep_cacheTimeout_ge ops initState (by norm_num [initState])

/-- C1 (evidence of the code bug): at a state whose only entry for the
computed key is stale (age 40000 ms against TTL 30000 ms) and with a
rejecting transport, DataManager.getTrafficData returns the fixed
fallback payload — the initial getFromCache freshness check deleted the
stale entry, so the `getFromCache(cacheKey, true)` read in the catch
block (commented "Return cached data if available, even if stale" in the
source) finds nothing — while the background worker's getTrafficData at
the mirrored input does serve the stale cached value, as the claim
states. -/
theorem stale_fallback_unreachable_at_failing_input :
    getTrafficData ⟨[("traffic_p", ⟨samplePayload, 0⟩)], 30000⟩ 40000 40000 "p"
        (Except.error "network error") =
      (Payload.traffic (generateFallbackTrafficData 40000), ⟨[], 30000⟩, true) ∧
    Payload.traffic (generateFallbackTrafficData 40000) ≠ samplePayload ∧
    bgGetTrafficData ⟨[("traffic_p", ⟨samplePayload, 0⟩)]⟩ 400000 400000 "p"
        (Except.error "network error") 12 (fun _ => 0) =
      (samplePayload, ⟨[("traffic_p", ⟨samplePayload, 0⟩)]⟩, true) := by
  refine ⟨rfl, ?_, rfl⟩
  simp [generateFallbackTrafficData, samplePayload]

/-- C2 counterexample: with TTL 30000 ms and an entry written at t = 0,
the sequence get then getIgnoringTTL performed while the entry's age is in
(ttl, 2·ttl] does NOT keep returning the stored value from
getIgnoringTTL: the expired get deletes the entry, so the subsequent
getIgnoringTTL returns Absent, contradicting the claim's assertion for
arbitrary get/getIgnoringTTL sequences in that window. -/
theorem stale_get_then_ignoring_counterexample :
    (getFromCache ⟨[("k", ⟨samplePayload, 0⟩)], 30000⟩ 30001 "k" false).1 = none ∧
    (getFromCache (getFromCache ⟨[("k", ⟨samplePayload, 0⟩)], 30000⟩ 30001 "k" false).2
        30002 "k" true).1 = none ∧
    (none : Option Payload) ≠ some samplePayload := by
  refine ⟨rfl, rfl, by simp⟩

/-- C2 as amended: once the entry's age exceeds the TTL, get returns
Absent and deletes the entry; getIgnoringTTL still returns the stored
value and leaves the state unchanged (so any sequence of getIgnoringTTL
calls keeps returning it), but after the first expired get, getIgnoringTTL
returns Absent as well. -/
theorem stale_read_behavior :
    ∀ (s : DMState) (now now' : Nat) (k : String) (e : CacheEntry),
      mapGet s.cache k = some e →
      now - e.timestamp > s.cacheTimeout →
      getFromCache s now k false = (none, { s with cache := mapDelete s.cache k }) ∧
      getFromCache s now k true = (some e.data, s) ∧
      (getFromCache (getFromCache s now k false).2 now' k true).1 = none := by
  intro s now now' k e hm hst
  refine ⟨getFromCache_stale hm hst, getFromCache_ignore hm, ?_⟩
  rw [getFromCache_stale hm hst]
  rw [getFromCache_none (s := { s with cache := mapDelete s.cache k })
    (mapGet_mapDelete_self s.cache k)]

/-- Witness for the amended C2 theorem at a concrete state. -/
theorem stale_read_behavior_witness :
    getFromCache ⟨[("k", ⟨samplePayload, 0⟩)], 30000⟩ 30001 "k" false =
      (none, ⟨[], 30000⟩) ∧
    getFromCache ⟨[("k", ⟨samplePayload, 0⟩)], 30000⟩ 30001 "k" true =
      (some samplePayload, ⟨[("k", ⟨samplePayload, 0⟩)], 30000⟩) ∧
    (getFromCache (getFromCache ⟨[("k", ⟨samplePayload, 0⟩)], 30000⟩ 30001 "k" false).2
        30002 "k" true).1 = none :=
  stale_read_behavior ⟨[("k", ⟨samplePayload, 0⟩)], 30000⟩ 30001 30002 "k"
    ⟨samplePayload, 0⟩ (by decide) (by decide)

/-! Event bus lemmas. -/

theorem mapGet_mapSet_ne {β : Type} (m : List (String × β)) (key k : String) (v : β)
    (hne : key ≠ k) : mapGet (mapSet m key v) k = mapGet m k := by
  induction m with
  | nil => simp [mapSet, mapGet, hne]
  | cons p rest ih =>
    obtain ⟨k', v'⟩ := p
    by_cases h : k' = key
    · subst h
      simp [mapSet, mapGet, hne]
    · simp [mapSet, h, mapGet, ih]

theorem busOn_mapGet {H : Type} (b : EventBus H) (ev : String) (h : H)
    (event : String) :
    mapGet (busOn b ev h).listeners event =
      if ev = event then some ((mapGet b.listeners event).getD [] ++ [h])
      else mapGet b.listeners event := by
  unfold busOn
  cases hm : mapGet b.listeners ev with
  | none =>
    by_cases hev : ev = event
    · subst hev
      rw [mapGet_mapSet_self]
      simp [hm]
    · rw [mapGet_mapSet_ne _ _ _ _ hev]
      simp [hev]
  | some arr =>
    by_cases hev : ev = event
    · subst hev
      rw [mapGet_mapSet_self]
      simp [hm]
    · rw [mapGet_mapSet_ne _ _ _ _ hev]
      simp [hev]

theorem applyRegs_extends {H : Type} (event : String) (regs : List (String × H)) :
    ∀ (b : EventBus H) (l : List H), mapGet b.listeners event = some l →
      ∃ ext, mapGet (applyRegs b regs).listeners event = some (l ++ ext) := by
  induction regs with
  | nil =>
    intro b l hm
    exact ⟨[], by simpa using hm⟩
  | cons p rest ih =>
    obtain ⟨ev, h⟩ := p
    intro b l hm
    simp only [applyRegs]
    by_cases hev : ev = event
    · subst hev
      have hb : mapGet (busOn b ev h).listeners ev = some (l ++ [h]) := by
        rw [busOn_mapGet]
        simp [hm]
      obtain ⟨ext, hext⟩ := ih (busOn b ev h) (l ++ [h]) hb
      exact ⟨[h] ++ ext, by rw [hext, List.append_assoc]⟩
    · have hb : mapGet (busOn b ev h).listeners event = some l := by
        rw [busOn_mapGet]
        simp [hev, hm]
      obtain ⟨ext, hext⟩ := ih _ _ hb
      exact ⟨ext, hext⟩

theorem emitLoop_log {H P : Type} (act : H → P → List (String × H)) (event : String)
    (x : P) (snap : List H) :
    ∀ (rem k : Nat) (b : EventBus H) (log ext : List H),
      mapGet b.listeners event = some (snap ++ ext) →
      snap.length = k + rem →
      (emitLoop act event x k rem b log).2 = log ++ snap.drop k := by
  intro rem
  induction rem with
  | zero =>
    intro k b log ext hm hk
    show (b, log).2 = log ++ snap.drop k
    rw [List.drop_eq_nil_of_le (by omega)]
    simp
  | succ rem ih =>
    intro k b log ext hm hk
    have hks : k < snap.length := by omega
    show (emitLoop act event x k (rem + 1) b log).2 = log ++ snap.drop k
    rw [emitLoop, hm]
    have hg : (snap ++ ext)[k]? = some snap[k] := by
      rw [List.getElem?_append_left hks, List.getElem?_eq_getElem hks]
    simp only [Option.getD_some, hg]
    obtain ⟨ext₂, hm'⟩ :=
      applyRegs_extends event (act snap[k] x) b (snap ++ ext) hm
    rw [List.append_assoc] at hm'
    rw [ih (k + 1) _ (log ++ [snap[k]]) (ext ++ ext₂) hm' (by omega)]
    rw [List.drop_eq_getElem_cons hks]
    simp

/-- C7: emit invokes, before returning, exactly the handlers registered
for the event at the moment emit begins — once per registration and in
registration order — even when the invoked handlers register further
handlers during the emission (those are appended past the length cached
by forEach and are not invoked); and `on` appends at the end of the
registration list, so the invocation order is the registration order. -/
theorem emit_invokes_snapshot :
    ∀ (H P : Type) (act : H → P → List (String × H)) (b : EventBus H)
      (event : String) (x : P),
      (emit act b event x).2 = (mapGet b.listeners event).getD [] ∧
      (∀ (b' : EventBus H) (ev : String) (h : H),
        mapGet (busOn b' ev h).listeners ev =
          some ((mapGet b'.listeners ev).getD [] ++ [h])) := by
  intro H P act b event x
  constructor
  · unfold emit
    cases hm : mapGet b.listeners event with
    | none => rfl
    | some arr =>
      have h := emitLoop_log act event x arr arr.length 0 b [] []
        (by simpa using hm) (by simp)
      simpa using h
  · intro b' ev h
    rw [busOn_mapGet]
    simp

/-- C8: the messenger resolves with `response.data` exactly when a
response arrived with `success` true; a response with `success` false
rejects with `response.error` (the generic message when that field is
absent or empty), a missing response rejects with the generic
"Unknown error", and a channel failure rejects with the channel's
message. -/
theorem sendMessage_resolution :
    (∀ r : Response, r.success = true →
      sendMessageToBackground (ChannelOutcome.reply (some r)) = Except.ok r.data) ∧
    (∀ r : Response, r.success = false →
      sendMessageToBackground (ChannelOutcome.reply (some r)) =
        Except.error (jsStringOr r.error "Unknown error")) ∧
    sendMessageToBackground (ChannelOutcome.reply none) = Except.error "Unknown error" ∧
    (∀ msg : String,
      sendMessageToBackground (ChannelOutcome.channelError msg) = Except.error msg) ∧
    (∀ (outcome : ChannelOutcome) (d : Option Payload),
      sendMessageToBackground outcome = Except.ok d →
      ∃ r, outcome = ChannelOutcome.reply (some r) ∧ r.success = true ∧ r.data = d) := by
  refine ⟨?_, ?_, rfl, fun msg => rfl, ?_⟩
  · intro r h
    simp [sendMessageToBackground, h]
  · intro r h
    simp [sendMessageToBackground, h]
  · intro outcome d h
    cases outcome with
    | channelError msg => simp [sendMessageToBackground] at h
    | reply response =>
      cases response with
      | none => simp [sendMessageToBackground] at h
      | some r =>
        by_cases hs : r.success
        · refine ⟨r, rfl, hs, ?_⟩
          simp [sendMessageToBackground, hs] at h
          exact h
        · simp [sendMessageToBackground, hs] at h

/-- Witness for the C8 theorem at concrete responses. -/
theorem sendMessage_resolution_witness :
    sendMessageToBackground
        (ChannelOutcome.reply (some ⟨true, some samplePayload, none⟩)) =
      Except.ok (some samplePayload) ∧
    sendMessageToBackground (ChannelOutcome.reply (some ⟨false, none, some "boom"⟩)) =
      Except.error "boom" := by
  constructor
  · exact sendMessage_resolution.1 ⟨true, some samplePayload, none⟩ rfl
  · have h := sendMessage_resolution.2.1 ⟨false, none, some "boom"⟩ rfl
    rw [h]
    rfl

/-- C9: after every page-visit store the new entry is at index 0 and the
visitedSites list has length at most 10, and after every tab-update store
the recentTabs list likewise starts with the new entry and has length at
most 20, for every previously stored list. -/
theorem visit_history_capped :
    ∀ (stored : Option (List PageData)) (pd : PageData)
      (storedT : Option (List TabData)) (td : TabData),
      (storePageData stored pd).head? = some pd ∧
      (storePageData stored pd).length ≤ 10 ∧
      (storeTabData storedT td).head? = some td ∧
      (storeTabData storedT td).length ≤ 20 := by
  intro stored pd storedT td
  refine ⟨?_, ?_, ?_, ?_⟩
  · simp only [storePageData]
    split
    · rfl
    · rfl
  · simp only [storePageData]
    split
    · rw [List.length_take]
      exact min_le_left _ _
    · next hlen => exact Nat.not_lt.mp hlen
  · simp only [storeTabData]
    split
    · rfl
    · rfl
  · simp only [storeTabData]
    split
    · rw [List.length_take]
      exact min_le_left _ _
    · next hlen => exact Nat.not_lt.mp hlen

/-- C10: every route list produced by DataManager.generateMockRoutes and
by the background worker's getRouteSuggestions is sorted by ascending
duration — each adjacent pair satisfies `routeLE` (the earlier route's
duration is at most the later one's) — for every clock reading,
origin/destination pair and randomness oracle. -/
theorem routes_sorted_by_duration :
    ∀ (now : Nat) (rnd : Nat → ℚ) (now' : Nat) (fromLoc toLoc : ℚ × ℚ)
      (rnd' : Nat → ℚ),
      List.Chain' routeLE (generateMockRoutes now rnd) ∧
      List.Chain' routeLE (bgGetRouteSuggestions now' fromLoc toLoc rnd') := by
  intro now rnd now' fromLoc toLoc rnd'
  constructor
  · exact (List.sorted_insertionSort routeLE _).chain'
  · exact (List.sorted_insertionSort routeLE _).chain'

end TrafficExt
